import Mathlib

/-!
Verification of the request-normalization and dispatch layer of the
edx-search repository (file search/views.py), against its natural-language
specification.

The module is a thin HTTP adapter: it parses pagination and filter
parameters from a POST dictionary, calls an external search collaborator,
emits analytics events, and serializes either a search result or an error
body together with an HTTP status code.

Modelling conventions (a shallow embedding of the Python source):

* A POST dictionary is an association list `List (String × String)`;
  dictionary access `request.POST[k]` / `request.POST.get(k)` is
  `List.lookup k`, and a key is present when it occurs in `List.map
  Prod.fst`.
* Python integer parsing `int(s)` is `pyInt?` below: strip surrounding
  whitespace, an optional sign, then a non-empty digit string; any other
  shape raises `ValueError`, modelled as `none`.
* Exceptions are the inductive `PyExc`: `valueError` carries the message
  that `unicode(err)` would render (the view catches this class
  specially), `other` stands for every other exception class (caught by
  the broad `except Exception` handler, or propagating where no handler
  is installed).
* The collaborators (`SearchInitializer.set_search_enviroment`,
  `perform_search`, `course_discovery_search`,
  `course_discovery_filter_fields`, and the optional taxoman display-order
  functions) are fields of a `Collab` record: the views are verified for
  every possible collaborator behaviour.
* Each view returns a `ViewOut`: either `resp status body events calls`
  (an HTTP response, with the analytics events emitted and the search
  collaborator calls performed, each in order) or `raised exc events
  calls` (an exception escaped the view function).
* The search result returned by a successful collaborator call is a
  record with the fields the view reads (`total`, and the optional
  `facets` dictionary); JSON values inside facet dictionaries are the
  inductive `JVal`.
-/

set_option autoImplicit false

namespace EdxSearch

/-- A JSON-like value, used for the contents of facet dictionaries. -/
inductive JVal where
  | jnull
  | jstr (s : String)
  | jint (n : Int)
  | jarr (xs : List JVal)
  | jobj (fields : List (String × JVal))

/-- A Python dictionary with string keys, as an association list. -/
abbrev Dict (α : Type) := List (String × α)

/-- A facet entry: a dictionary of JSON values (for example the keys
display_order and facet_values). -/
abbrev FacetD := Dict JVal

/-- The facets mapping of a search result: facet slug to facet entry. -/
abbrev FacetsD := Dict FacetD

/-- The search result dictionary returned by a successful collaborator
call, with the fields the view layer reads. `facets` is optional: a
result dictionary need not contain the facets key. -/
structure SearchResult where
  took : Int
  total : Int
  maxScore : Int
  results : List JVal
  facets : Option FacetsD

/-- A Python exception, as the view layer distinguishes them:
`valueError msg` is a ValueError rendering to `msg`; `other msg` is any
other exception class. -/
inductive PyExc where
  | valueError (msg : String)
  | other (msg : String)

/-- The KeyError raised by `results['facets']` when the results
dictionary has no facets key (the taxoman post-processing block). -/
def keyErrorFacets : PyExc := .other "KeyError: facets"

/-- The JSON body of an HTTP response produced by a view: either a
search-result dictionary or an error dictionary with a single error key
holding a message string. -/
inductive Body where
  | ok (r : SearchResult)
  | err (msg : String)

/-- An analytics event emitted through `track.emit`, with its payload. -/
inductive Event where
  | initiated (searchTerm : Option String) (pageSize pageNumber : Int)
  | resultsDisplayed (searchTerm : Option String) (pageSize pageNumber resultsCount : Int)

/-- A call to a search-execution collaborator, with its arguments. -/
inductive SearchCall where
  | performSearch (searchTerm : String) (size fromOff : Int) (courseId : Option String)
  | discoverySearch (searchTerm : Option String) (size fromOff : Int)
      (fieldDictionary : Dict String)

/-- The observable outcome of one view invocation: an HTTP response
(status code and JSON body) or an exception escaping the view, together
with the analytics events emitted and the search collaborator calls
made, in order. -/
inductive ViewOut where
  | resp (status : Nat) (body : Body) (events : List Event) (calls : List SearchCall)
  | raised (exc : PyExc) (events : List Event) (calls : List SearchCall)

/-- Django settings read by the module: the optional SEARCH_MAX_PAGE_SIZE
value and the ENABLE_TAXOMAN feature flag. -/
structure Settings where
  searchMaxPageSize : Option Int
  enableTaxoman : Bool

/-- getattr(settings, SEARCH_MAX_PAGE_SIZE, 100). -/
def SEARCH_MAX_PAGE_SIZE (S : Settings) : Int :=
  S.searchMaxPageSize.getD 100

/-- The behaviour of every external collaborator the views call.
`initEnv = some e` means `SearchInitializer.set_search_enviroment`
raises `e`; `none` means it returns normally. The two search functions
return a result or raise. `emit ev = some e` means `track.emit` raises
`e` when asked to emit `ev` (the emission is not guarded separately in
the source, so such a failure is caught by the surrounding handlers);
`none` means the event is emitted. `filterFields` is the value of
`course_discovery_filter_fields()`. The last two fields are the taxoman
display-order collaborators. -/
structure Collab where
  initEnv : Option PyExc
  performSearch : String → Int → Int → Option String → Except PyExc SearchResult
  discoverySearch : Option String → Int → Int → Dict String → Except PyExc SearchResult
  emit : Event → Option PyExc
  filterFields : List String
  slugsDisplayOrder : List (String × Int)
  facetValuesDisplayOrder : String → JVal

/-- An HTTP POST request: its POST dictionary. -/
structure Request where
  post : Dict String

/-- Python whitespace recognized by int() stripping. -/
def pySpace (c : Char) : Bool :=
  c == ' ' || c == '\t' || c == '\n' || c == '\r'

/-- Strip leading and trailing whitespace, as int() does. -/
def pyStrip (cs : List Char) : List Char :=
  ((cs.dropWhile pySpace).reverse.dropWhile pySpace).reverse

/-- The natural number denoted by a list of decimal digits. -/
def digitsVal (cs : List Char) : Nat :=
  cs.foldl (fun a c => 10 * a + (c.toNat - 48)) 0

/-- Parse a non-empty all-digit character list, else fail. -/
def pyIntDigits (cs : List Char) : Option Int :=
  if !cs.isEmpty && cs.all Char.isDigit then some (digitsVal cs) else none

/-- Parse a stripped character list as int() does: optional sign, then a
non-empty digit string. -/
def pyIntCore : List Char → Option Int
  | '+' :: rest => pyIntDigits rest
  | '-' :: rest => (pyIntDigits rest).map (fun n => -n)
  | cs => pyIntDigits cs

/-- Python int(s) on a string: `some n` when the parse succeeds, `none`
when it raises ValueError. -/
def pyInt? (s : String) : Option Int :=
  pyIntCore (pyStrip s.data)

/-- The message of the ValueError raised by int() on a non-numeric
string (invalid literal for int() with base 10). -/
def pyIntErr (s : String) : String :=
  "invalid literal for int() with base 10: " ++ s

/-- The message of the ValueError raised for an out-of-range page size
(views.py line 31). -/
def invalidPageSizeMsg (size : Int) : String :=
  "Invalid page size of " ++ toString size

/-- The message of the ValueError raised for a missing search term
(views.py line 86). -/
def noSearchTermMsg : String := "No search term provided for search"

/-- Python truthiness test `not search_term` for an optional string:
true when the key was absent (None) or the string is empty. -/
def strFalsy : Option String → Bool
  | none => true
  | some s => s.isEmpty

/-- Rendering of an optional string by str.format: None prints as the
four letters None. -/
def pyFormatOptStr : Option String → String
  | none => "None"
  | some s => s

/-- The generic error message built in the broad exception handler: it
interpolates only the search term, never the exception text
(views.py lines 130 and 220). -/
def genericErrMsg (term : Option String) : String :=
  "An error occurred when searching for \x22" ++ pyFormatOptStr term ++ "\x22"

/-- The body message produced by the pair of exception handlers of each
view: a ValueError is rendered with its own message, any other
exception with the generic templated message. -/
def handlerBody (term : Option String) : PyExc → String
  | .valueError m => m
  | .other _ => genericErrMsg term

/-- _process_pagination_values (views.py lines 21 to 36): default size
20, page 0, offset 0; when page_size is present parse it, reject a value
outside 0 < size <= SEARCH_MAX_PAGE_SIZE, and only then honour an
explicit page_index, with offset = page * size. Raised ValueErrors are
returned as `Except.error`. -/
def process_pagination_values (S : Settings) (req : Request) :
    Except PyExc (Int × Int × Int) :=
  match req.post.lookup "page_size" with
  | none => .ok (20, 0, 0)
  | some rawSize =>
    match pyInt? rawSize with
    | none => .error (.valueError (pyIntErr rawSize))
    | some size =>
      if !(0 < size && size ≤ SEARCH_MAX_PAGE_SIZE S) then
        .error (.valueError (invalidPageSizeMsg size))
      else
        match req.post.lookup "page_index" with
        | none => .ok (size, 0, 0)
        | some rawPage =>
          match pyInt? rawPage with
          | none => .error (.valueError (pyIntErr rawPage))
          | some page => .ok (size, page * size, page)

/-- _process_field_values (views.py lines 39 to 45): the sub-dictionary
of the POST dictionary on the keys that appear in
course_discovery_filter_fields(). -/
def process_field_values (allowedFields : List String) (post : Dict String) :
    Dict String :=
  post.filter (fun p => decide (p.1 ∈ allowedFields))

/-- Python dictionary assignment d[k] = v on an association list:
replace the value at an existing key in place, otherwise append the new
binding. -/
def dictSet {α : Type} (d : Dict α) (k : String) (v : α) : Dict α :=
  if (d.lookup k).isSome then
    d.map (fun p => if p.1 == k then (k, v) else p)
  else
    d ++ [(k, v)]

/-- The loop body of the taxoman block on one facet entry: attach the
display_order value and replace facet_values with the collaborator
supplied ordered list (views.py lines 234 to 237). -/
def annotate_facet (fv : String → JVal) (slug : String) (order : Int) (f : FacetD) :
    FacetD :=
  dictSet (dictSet f "display_order" (.jint order)) "facet_values" (fv slug)

/-- One iteration of the taxoman loop: when the slug is a key of the
facets dictionary, overwrite its entry with the annotated one; a slug
absent from the facets dictionary is skipped (views.py line 233). -/
def taxoman_step (fv : String → JVal) (fs : FacetsD) (sd : String × Int) : FacetsD :=
  match fs.lookup sd.1 with
  | none => fs
  | some f => dictSet fs sd.1 (annotate_facet fv sd.1 sd.2 f)

/-- The whole taxoman loop over the slug display orders, applied to a
facets dictionary (views.py lines 232 to 237). -/
def taxoman_annotate (fv : String → JVal) (slugOrders : List (String × Int))
    (fs : FacetsD) : FacetsD :=
  slugOrders.foldl (taxoman_step fv) fs

/-- The taxoman post-processing block applied to the response body
(views.py lines 229 to 237). The loop body evaluates results[facets]
on each iteration, so with at least one slug it raises KeyError when the
body is an error dictionary or a result without a facets key; with no
slugs the body is returned untouched. -/
def apply_taxoman (slugOrders : List (String × Int)) (fv : String → JVal)
    (b : Body) : Except PyExc Body :=
  if slugOrders.isEmpty then .ok b
  else
    match b with
    | .err _ => .error keyErrorFacets
    | .ok r =>
      match r.facets with
      | none => .error keyErrorFacets
      | some fs => .ok (.ok { r with facets := some (taxoman_annotate fv slugOrders fs) })

/-- do_search (views.py lines 48 to 143). The environment initializer
runs before the try block, so its exception propagates. Inside the try
block: reject a falsy search term, normalize pagination, emit the
initiated event (line 91; an emission failure is caught by the handlers
and perform_search is never called), call perform_search, set status
200 at line 108, then emit the results_displayed event at lines 111 to
119. Because status 200 is assigned before that second emission, a
raising displayed emission leaves status 200 while the handler
overwrites the body with an error dictionary. A ValueError is rendered
with its own message, any other exception with the generic message. -/
def do_search (C : Collab) (S : Settings) (req : Request) (courseId : Option String) :
    ViewOut :=
  match C.initEnv with
  | some e => .raised e [] []
  | none =>
    let searchTerm := req.post.lookup "search_string"
    if strFalsy searchTerm then
      .resp 500 (.err (handlerBody searchTerm (.valueError noSearchTermMsg))) [] []
    else
      match process_pagination_values S req with
      | .error e => .resp 500 (.err (handlerBody searchTerm e)) [] []
      | .ok (size, fromOff, page) =>
        let ev1 := Event.initiated searchTerm size page
        match C.emit ev1 with
        | some e => .resp 500 (.err (handlerBody searchTerm e)) [] []
        | none =>
          let term := searchTerm.getD ""
          let call := SearchCall.performSearch term size fromOff courseId
          match C.performSearch term size fromOff courseId with
          | .error e => .resp 500 (.err (handlerBody searchTerm e)) [ev1] [call]
          | .ok r =>
            let ev2 := Event.resultsDisplayed searchTerm size page r.total
            match C.emit ev2 with
            | some e => .resp 200 (.err (handlerBody searchTerm e)) [ev1] [call]
            | none => .resp 200 (.ok r) [ev1, ev2] [call]

/-- The try and except part of course_discovery (views.py lines 170 to
227): status code, body, events emitted and collaborator calls made,
before the taxoman block runs. Unlike do_search, status 200 is assigned
at line 209, after the results_displayed emission of lines 199 to 207,
so a raising displayed emission leaves status 500 with an error body
even though the collaborator call succeeded. -/
def course_discovery_inner (C : Collab) (S : Settings) (req : Request) :
    Nat × Body × List Event × List SearchCall :=
  let searchTerm := req.post.lookup "search_string"
  match process_pagination_values S req with
  | .error e => (500, .err (handlerBody searchTerm e), [], [])
  | .ok (size, fromOff, page) =>
    let fieldDict := process_field_values C.filterFields req.post
    let ev1 := Event.initiated searchTerm size page
    match C.emit ev1 with
    | some e => (500, .err (handlerBody searchTerm e), [], [])
    | none =>
      let call := SearchCall.discoverySearch searchTerm size fromOff fieldDict
      match C.discoverySearch searchTerm size fromOff fieldDict with
      | .error e => (500, .err (handlerBody searchTerm e), [ev1], [call])
      | .ok r =>
        let ev2 := Event.resultsDisplayed searchTerm size page r.total
        match C.emit ev2 with
        | some e => (500, .err (handlerBody searchTerm e), [ev1], [call])
        | none => (200, .ok r, [ev1, ev2], [call])

/-- course_discovery (views.py lines 146 to 243): the try and except
part, then, when ENABLE_TAXOMAN is set, the facet display-order block,
which runs outside every exception handler and therefore propagates its
own failures. -/
def course_discovery (C : Collab) (S : Settings) (req : Request) : ViewOut :=
  match course_discovery_inner C S req with
  | (status, body, events, calls) =>
    if S.enableTaxoman then
      match apply_taxoman C.slugsDisplayOrder C.facetValuesDisplayOrder body with
      | .error e => .raised e events calls
      | .ok body2 => .resp status body2 events calls
    else
      .resp status body events calls

/-- Reference definition of normalize_pagination, written from the words
of the specification rather than from the source, for the refinement
claim C2: absent page size gives size 20, offset 0, page 0 even when a
page index is supplied; a page size parsing into the closed interval
from 1 to the maximum gives that exact size, the parsed page index
(0 when absent) and offset equal to page index times size; every other
input is not accepted. -/
def normalize_pagination_spec (maxPS : Int) (pageSizeRaw pageIndexRaw : Option String) :
    Option (Int × Int × Int) :=
  match pageSizeRaw with
  | none => some (20, 0, 0)
  | some s =>
    match pyInt? s with
    | none => none
    | some n =>
      if 1 ≤ n ∧ n ≤ maxPS then
        match pageIndexRaw with
        | none => some (n, 0, 0)
        | some p =>
          match pyInt? p with
          | none => none
          | some m => some (n, m * n, m)
      else none

/-- The outcome is an HTTP response of a legal shape: a success result
with status 200 or an error body with status 500; an escaped exception
is not well formed. -/
def wellFormedResp : ViewOut → Prop
  | .resp st (.ok _) _ _ => st = 200
  | .resp st (.err _) _ _ => st = 500
  | .raised _ _ _ => False

/-- A concrete facets dictionary used in concrete instantiations. -/
def sampleFacets : FacetsD :=
  [("subject", [("facet_values", JVal.jarr [JVal.jstr "math"])]),
   ("language", [("facet_values", JVal.jarr [])])]

/-- A concrete search result used in concrete instantiations. -/
def sampleResult : SearchResult :=
  { took := 1, total := 7, maxScore := 2, results := [], facets := some sampleFacets }

/-- A benign collaborator: the initializer returns, both searches
succeed with sampleResult, and no display orders are supplied. -/
def okCollab : Collab :=
  { initEnv := none
    performSearch := fun _ _ _ _ => .ok sampleResult
    discoverySearch := fun _ _ _ _ => .ok sampleResult
    emit := fun _ => none
    filterFields := ["org", "subject"]
    slugsDisplayOrder := []
    facetValuesDisplayOrder := fun _ => JVal.jarr [] }

/-- A concrete search result carrying no facets key. -/
def noFacetsResult : SearchResult :=
  { took := 1, total := 3, maxScore := 1, results := [], facets := none }

/-- A collaborator whose discovery search succeeds with a result that
has no facets key, while the display-order collaborator supplies one
slug. -/
def noFacetsCollab : Collab :=
  { okCollab with
    discoverySearch := fun _ _ _ _ => .ok noFacetsResult
    slugsDisplayOrder := [("language", 0)] }

/-- A collaborator whose discovery search fails and whose display-order
collaborator supplies one slug. -/
def taxFailCollab : Collab :=
  { okCollab with
    discoverySearch := fun _ _ _ _ => .error (.other "boom")
    slugsDisplayOrder := [("language", 0)] }

/-- Settings with no explicit maximum page size and the display-order
feature disabled. -/
def defaultSettings : Settings := { searchMaxPageSize := none, enableTaxoman := false }

/-- Settings with no explicit maximum page size and the display-order
feature enabled. -/
def taxSettings : Settings := { searchMaxPageSize := none, enableTaxoman := true }

/-- A concrete well-formed request. -/
def reqRobotics : Request :=
  ⟨[("search_string", "robotics"), ("page_size", "10"), ("page_index", "2")]⟩

theorem lookup_cons {α : Type} (a k : String) (v : α) (t : Dict α) :
    ((a, v) :: t).lookup k = if k = a then some v else t.lookup k := by
  by_cases h : k = a
  · subst h; simp [List.lookup]
  · simp [List.lookup, beq_false_of_ne h, h]

theorem lookup_eq_none_iff {α : Type} (l : Dict α) (k : String) :
    l.lookup k = none ↔ k ∉ l.map Prod.fst := by
  induction l with
  | nil => simp
  | cons p t ih =>
    obtain ⟨a, v⟩ := p
    by_cases h : k = a
    · subst h; simp [lookup_cons]
    · simp [lookup_cons, h, ih, Ne.symm h]

theorem lookup_map_overwrite {α : Type} (d : Dict α) (k : String) (v : α)
    (h : (d.lookup k).isSome) :
    (d.map (fun p => if p.1 == k then (k, v) else p)).lookup k = some v := by
  induction d with
  | nil => simp [List.lookup] at h
  | cons p t ih =>
    obtain ⟨a, w⟩ := p
    by_cases hp : a = k
    · subst hp; simp [lookup_cons]
    · rw [lookup_cons, if_neg (Ne.symm hp)] at h
      simp only [List.map_cons, beq_false_of_ne hp, Bool.false_eq_true, if_false]
      rw [lookup_cons, if_neg (Ne.symm hp)]
      exact ih h

theorem lookup_map_overwrite_ne {α : Type} (d : Dict α) (k k' : String) (v : α)
    (h : k' ≠ k) :
    (d.map (fun p => if p.1 == k then (k, v) else p)).lookup k' = d.lookup k' := by
  induction d with
  | nil => simp
  | cons p t ih =>
    obtain ⟨a, w⟩ := p
    simp only [List.map_cons]
    by_cases hp : a = k
    · subst hp
      simp only [beq_self_eq_true, if_true]
      rw [lookup_cons, lookup_cons, if_neg h, if_neg h]
      exact ih
    · simp only [beq_false_of_ne hp, Bool.false_eq_true, if_false]
      rw [lookup_cons, lookup_cons]
      by_cases hk : k' = a
      · simp [hk]
      · rw [if_neg hk, if_neg hk]; exact ih

theorem lookup_append_sing_self {α : Type} (d : Dict α) (k : String) (v : α)
    (h : d.lookup k = none) :
    (d ++ [(k, v)]).lookup k = some v := by
  induction d with
  | nil => simp [lookup_cons]
  | cons p t ih =>
    obtain ⟨a, w⟩ := p
    rw [lookup_cons] at h
    by_cases hk : k = a
    · simp [hk] at h
    · rw [if_neg hk] at h
      rw [List.cons_append, lookup_cons, if_neg hk]
      exact ih h

theorem lookup_append_sing_ne {α : Type} (d : Dict α) (k k' : String) (v : α)
    (h : k' ≠ k) :
    (d ++ [(k, v)]).lookup k' = d.lookup k' := by
  induction d with
  | nil => simp [lookup_cons, h]
  | cons p t ih =>
    obtain ⟨a, w⟩ := p
    rw [List.cons_append, lookup_cons, lookup_cons]
    by_cases hk : k' = a
    · simp [hk]
    · rw [if_neg hk, if_neg hk]; exact ih

theorem lookup_dictSet_self {α : Type} (d : Dict α) (k : String) (v : α) :
    (dictSet d k v).lookup k = some v := by
  unfold dictSet
  by_cases h : (d.lookup k).isSome
  · rw [if_pos h]; exact lookup_map_overwrite d k v h
  · rw [if_neg h]
    exact lookup_append_sing_self d k v (Option.not_isSome_iff_eq_none.mp h)

theorem lookup_dictSet_ne {α : Type} (d : Dict α) (k k' : String) (v : α)
    (h : k' ≠ k) :
    (dictSet d k v).lookup k' = d.lookup k' := by
  unfold dictSet
  by_cases hs : (d.lookup k).isSome
  · rw [if_pos hs]; exact lookup_map_overwrite_ne d k k' v h
  · rw [if_neg hs]; exact lookup_append_sing_ne d k k' v h

theorem map_fst_overwrite {α : Type} (d : Dict α) (k : String) (v : α) :
    (d.map (fun p => if p.1 == k then (k, v) else p)).map Prod.fst = d.map Prod.fst := by
  induction d with
  | nil => simp
  | cons p t ih =>
    obtain ⟨a, w⟩ := p
    have hhead : ((if (a == k) = true then (k, v) else (a, w)) : String × α).1 = a := by
      by_cases hp : a = k
      · simp [hp]
      · simp [beq_false_of_ne hp]
    rw [List.map_cons, List.map_cons, List.map_cons, hhead, ih]

theorem keys_dictSet_of_isSome {α : Type} (d : Dict α) (k : String) (v : α)
    (h : (d.lookup k).isSome) :
    (dictSet d k v).map Prod.fst = d.map Prod.fst := by
  unfold dictSet
  rw [if_pos h]
  exact map_fst_overwrite d k v


theorem taxoman_step_keys (fv : String → JVal) (fs : FacetsD) (sd : String × Int) :
    (taxoman_step fv fs sd).map Prod.fst = fs.map Prod.fst := by
  unfold taxoman_step
  cases h : fs.lookup sd.1 with
  | none => rfl
  | some f => exact keys_dictSet_of_isSome fs sd.1 _ (by rw [h]; rfl)

theorem taxoman_annotate_cons (fv : String → JVal) (sd : String × Int)
    (rest : List (String × Int)) (fs : FacetsD) :
    taxoman_annotate fv (sd :: rest) fs = taxoman_annotate fv rest (taxoman_step fv fs sd) := rfl

theorem taxoman_annotate_keys (fv : String → JVal) (so : List (String × Int)) (fs : FacetsD) :
    (taxoman_annotate fv so fs).map Prod.fst = fs.map Prod.fst := by
  induction so generalizing fs with
  | nil => rfl
  | cons sd rest ih =>
    rw [taxoman_annotate_cons, ih, taxoman_step_keys]

theorem taxoman_step_lookup_ne (fv : String → JVal) (fs : FacetsD) (sd : String × Int)
    (s : String) (h : s ≠ sd.1) :
    (taxoman_step fv fs sd).lookup s = fs.lookup s := by
  unfold taxoman_step
  cases hx : fs.lookup sd.1 with
  | none => rfl
  | some f => exact lookup_dictSet_ne fs sd.1 s _ h

theorem taxoman_annotate_lookup_not_mem (fv : String → JVal) (so : List (String × Int))
    (fs : FacetsD) (s : String) (h : s ∉ so.map Prod.fst) :
    (taxoman_annotate fv so fs).lookup s = fs.lookup s := by
  induction so generalizing fs with
  | nil => rfl
  | cons sd rest ih =>
    rw [List.map_cons] at h
    rw [taxoman_annotate_cons, ih _ (fun hc => h (List.mem_cons_of_mem _ hc)),
      taxoman_step_lookup_ne fv fs sd s (fun hc => h (hc ▸ List.mem_cons_self _ _))]

theorem taxoman_annotate_lookup_none (fv : String → JVal) (so : List (String × Int))
    (fs : FacetsD) (s : String) (h : fs.lookup s = none) :
    (taxoman_annotate fv so fs).lookup s = none := by
  rw [lookup_eq_none_iff] at h ⊢
  rw [taxoman_annotate_keys]
  exact h

theorem taxoman_annotate_lookup_mem (fv : String → JVal) (so : List (String × Int))
    (fs : FacetsD) (hnd : (so.map Prod.fst).Nodup) (slug : String) (order : Int)
    (f : FacetD) (hmem : (slug, order) ∈ so) (hf : fs.lookup slug = some f) :
    (taxoman_annotate fv so fs).lookup slug = some (annotate_facet fv slug order f) := by
  induction so generalizing fs with
  | nil => cases hmem
  | cons sd rest ih =>
    rw [List.map_cons, List.nodup_cons] at hnd
    rcases List.mem_cons.mp hmem with heq | hmem2
    · subst heq
      have hstep : (taxoman_step fv fs (slug, order)).lookup slug =
          some (annotate_facet fv slug order f) := by
        unfold taxoman_step
        rw [hf]
        exact lookup_dictSet_self fs slug _
      rw [taxoman_annotate_cons,
        taxoman_annotate_lookup_not_mem fv rest _ slug hnd.1, hstep]
    · have hslug : slug ∈ rest.map Prod.fst :=
        List.mem_map_of_mem Prod.fst hmem2
      have hne : slug ≠ sd.1 := fun hc => hnd.1 (hc ▸ hslug)
      rw [taxoman_annotate_cons]
      exact ih _ hnd.2 hmem2
        (by rw [taxoman_step_lookup_ne fv fs sd slug hne]; exact hf)


theorem pagination_no_size (S : Settings) (req : Request)
    (h : req.post.lookup "page_size" = none) :
    process_pagination_values S req = .ok (20, 0, 0) := by
  simp [process_pagination_values, h]

theorem pagination_valid_no_index (S : Settings) (req : Request) (s : String) (n : Int)
    (hs : req.post.lookup "page_size" = some s) (hn : pyInt? s = some n)
    (h1 : 0 < n) (h2 : n ≤ SEARCH_MAX_PAGE_SIZE S)
    (hp : req.post.lookup "page_index" = none) :
    process_pagination_values S req = .ok (n, 0, 0) := by
  simp [process_pagination_values, hs, hn, h1, h2, hp]

theorem pagination_valid_index (S : Settings) (req : Request) (s p : String) (n m : Int)
    (hs : req.post.lookup "page_size" = some s) (hn : pyInt? s = some n)
    (h1 : 0 < n) (h2 : n ≤ SEARCH_MAX_PAGE_SIZE S)
    (hp : req.post.lookup "page_index" = some p) (hm : pyInt? p = some m) :
    process_pagination_values S req = .ok (n, m * n, m) := by
  simp [process_pagination_values, hs, hn, h1, h2, hp, hm]

theorem pagination_nonnumeric_size (S : Settings) (req : Request) (s : String)
    (hs : req.post.lookup "page_size" = some s) (hn : pyInt? s = none) :
    process_pagination_values S req = .error (.valueError (pyIntErr s)) := by
  simp [process_pagination_values, hs, hn]

theorem pagination_out_of_range (S : Settings) (req : Request) (s : String) (n : Int)
    (hs : req.post.lookup "page_size" = some s) (hn : pyInt? s = some n)
    (hr : ¬(0 < n ∧ n ≤ SEARCH_MAX_PAGE_SIZE S)) :
    process_pagination_values S req = .error (.valueError (invalidPageSizeMsg n)) := by
  have : (decide (0 < n) && decide (n ≤ SEARCH_MAX_PAGE_SIZE S)) = false := by
    rcases Decidable.not_and_iff_or_not.mp hr with h | h <;> simp [h]
  simp [process_pagination_values, hs, hn, this]

theorem pagination_bad_index (S : Settings) (req : Request) (s p : String) (n : Int)
    (hs : req.post.lookup "page_size" = some s) (hn : pyInt? s = some n)
    (h1 : 0 < n) (h2 : n ≤ SEARCH_MAX_PAGE_SIZE S)
    (hp : req.post.lookup "page_index" = some p) (hm : pyInt? p = none) :
    process_pagination_values S req = .error (.valueError (pyIntErr p)) := by
  simp [process_pagination_values, hs, hn, h1, h2, hp, hm]

theorem pagination_ok_inversion (S : Settings) (req : Request) (t : Int × Int × Int)
    (hacc : process_pagination_values S req = .ok t) :
    (req.post.lookup "page_size" = none ∧ t = (20, 0, 0)) ∨
    (∃ s n, req.post.lookup "page_size" = some s ∧ pyInt? s = some n ∧
      0 < n ∧ n ≤ SEARCH_MAX_PAGE_SIZE S ∧
      ((req.post.lookup "page_index" = none ∧ t = (n, 0, 0)) ∨
       (∃ p m, req.post.lookup "page_index" = some p ∧ pyInt? p = some m ∧
         t = (n, m * n, m)))) := by
  unfold process_pagination_values at hacc
  split at hacc
  · rename_i heq
    left
    exact ⟨heq, by injection hacc with h; exact h.symm⟩
  · rename_i s heq
    right
    split at hacc
    · exact absurd hacc (by simp)
    · rename_i n hn
      refine ⟨s, n, heq, hn, ?_⟩
      split at hacc
      · exact absurd hacc (by simp)
      · rename_i hcond
        have hrange : 0 < n ∧ n ≤ SEARCH_MAX_PAGE_SIZE S := by
          simpa using hcond
        refine ⟨hrange.1, hrange.2, ?_⟩
        split at hacc
        · rename_i hp
          left
          exact ⟨hp, by injection hacc with h; exact h.symm⟩
        · rename_i p hp
          split at hacc
          · exact absurd hacc (by simp)
          · rename_i m hm
            right
            exact ⟨p, m, hp, hm, by injection hacc with h; exact h.symm⟩


theorem course_discovery_inner_shape (C : Collab) (S : Settings) (req : Request) :
    (∃ m evs calls, course_discovery_inner C S req = (500, Body.err m, evs, calls)) ∨
    (∃ r term size page calls,
      course_discovery_inner C S req =
        (200, Body.ok r,
          [Event.initiated term size page,
           Event.resultsDisplayed term size page r.total], calls)) := by
  unfold course_discovery_inner
  split
  · exact Or.inl ⟨_, _, _, rfl⟩
  · dsimp only
    split
    · exact Or.inl ⟨_, _, _, rfl⟩
    · split
      · exact Or.inl ⟨_, _, _, rfl⟩
      · split
        · exact Or.inl ⟨_, _, _, rfl⟩
        · exact Or.inr ⟨_, _, _, _, _, rfl⟩

theorem course_discovery_shape (C : Collab) (S : Settings) (req : Request)
    (htax : S.enableTaxoman = false ∨ C.slugsDisplayOrder = []) :
    wellFormedResp (course_discovery C S req) := by
  unfold course_discovery
  rcases course_discovery_inner_shape C S req with ⟨m, evs, calls, hI⟩ |
    ⟨r, term, size, page, calls, hI⟩ <;>
    rw [hI] <;>
    rcases htax with h | h <;>
    simp [h, apply_taxoman, wellFormedResp]


theorem do_search_shape (C : Collab) (S : Settings) (req : Request)
    (courseId : Option String) (hinit : C.initEnv = none)
    (hemit : ∀ ev, C.emit ev = none) :
    wellFormedResp (do_search C S req courseId) := by
  simp only [do_search, hinit, hemit]
  split
  · exact rfl
  · split
    · exact rfl
    · split
      · exact rfl
      · exact rfl


theorem do_search_empty_term (C : Collab) (S : Settings) (req : Request)
    (courseId : Option String) (hinit : C.initEnv = none)
    (hterm : strFalsy (req.post.lookup "search_string") = true) :
    do_search C S req courseId = .resp 500 (.err noSearchTermMsg) [] [] := by
  simp only [do_search, hinit, hterm, if_true]
  rfl

theorem do_search_pagination_error (C : Collab) (S : Settings) (req : Request)
    (courseId : Option String) (m : String) (hinit : C.initEnv = none)
    (hterm : strFalsy (req.post.lookup "search_string") = false)
    (hpag : process_pagination_values S req = .error (.valueError m)) :
    do_search C S req courseId = .resp 500 (.err m) [] [] := by
  simp only [do_search, hinit, hterm, hpag, Bool.false_eq_true, if_false]
  rfl

theorem do_search_success (C : Collab) (S : Settings) (req : Request)
    (courseId : Option String) (size fromOff page : Int) (r : SearchResult)
    (hinit : C.initEnv = none)
    (hterm : strFalsy (req.post.lookup "search_string") = false)
    (hpag : process_pagination_values S req = .ok (size, fromOff, page))
    (hemit : ∀ ev, C.emit ev = none)
    (hok : C.performSearch ((req.post.lookup "search_string").getD "") size fromOff
      courseId = .ok r) :
    do_search C S req courseId =
      .resp 200 (.ok r)
        [Event.initiated (req.post.lookup "search_string") size page,
         Event.resultsDisplayed (req.post.lookup "search_string") size page r.total]
        [SearchCall.performSearch ((req.post.lookup "search_string").getD "") size fromOff
          courseId] := by
  simp only [do_search, hinit, hterm, hpag, Bool.false_eq_true, if_false, hemit, hok]

theorem course_discovery_inner_pagination_error (C : Collab) (S : Settings)
    (req : Request) (m : String)
    (hpag : process_pagination_values S req = .error (.valueError m)) :
    course_discovery_inner C S req = (500, .err m, [], []) := by
  simp only [course_discovery_inner, hpag]
  rfl

theorem course_discovery_inner_success (C : Collab) (S : Settings) (req : Request)
    (size fromOff page : Int) (r : SearchResult)
    (hpag : process_pagination_values S req = .ok (size, fromOff, page))
    (hemit : ∀ ev, C.emit ev = none)
    (hok : C.discoverySearch (req.post.lookup "search_string") size fromOff
      (process_field_values C.filterFields req.post) = .ok r) :
    course_discovery_inner C S req =
      (200, .ok r,
        [Event.initiated (req.post.lookup "search_string") size page,
         Event.resultsDisplayed (req.post.lookup "search_string") size page r.total],
        [SearchCall.discoverySearch (req.post.lookup "search_string") size fromOff
          (process_field_values C.filterFields req.post)]) := by
  simp only [course_discovery_inner, hpag, hemit, hok]

theorem course_discovery_of_inner (C : Collab) (S : Settings) (req : Request)
    (st : Nat) (b : Body) (evs : List Event) (calls : List SearchCall)
    (hI : course_discovery_inner C S req = (st, b, evs, calls))
    (htax : S.enableTaxoman = false ∨ C.slugsDisplayOrder = []) :
    course_discovery C S req = .resp st b evs calls := by
  unfold course_discovery
  rw [hI]
  rcases htax with h | h <;> simp [h, apply_taxoman]

theorem apply_taxoman_ok_of_facets (so : List (String × Int)) (fv : String → JVal)
    (r : SearchResult) (fs : FacetsD) (hfs : r.facets = some fs) :
    ∃ r2, apply_taxoman so fv (.ok r) = .ok (.ok r2) ∧ r2.total = r.total := by
  unfold apply_taxoman
  split
  · exact ⟨r, rfl, rfl⟩
  · dsimp only
    rw [hfs]
    exact ⟨_, rfl, rfl⟩

theorem course_discovery_ok_of_inner (C : Collab) (S : Settings) (req : Request)
    (r : SearchResult) (evs : List Event) (calls : List SearchCall)
    (hI : course_discovery_inner C S req = (200, .ok r, evs, calls))
    (htax : S.enableTaxoman = false ∨ C.slugsDisplayOrder = [] ∨ r.facets.isSome = true) :
    ∃ r2, r2.total = r.total ∧
      course_discovery C S req = .resp 200 (.ok r2) evs calls := by
  unfold course_discovery
  rw [hI]
  dsimp only
  by_cases ht : S.enableTaxoman = true
  · rw [if_pos ht]
    rcases htax with h | h | h
    · rw [h] at ht
      cases ht
    · refine ⟨r, rfl, ?_⟩
      have hA : apply_taxoman C.slugsDisplayOrder C.facetValuesDisplayOrder (.ok r) =
          .ok (.ok r) := by
        unfold apply_taxoman
        rw [if_pos (by rw [h]; rfl)]
      rw [hA]
    · obtain ⟨fs, hfs⟩ := Option.isSome_iff_exists.mp h
      obtain ⟨r2, hA, htot⟩ :=
        apply_taxoman_ok_of_facets C.slugsDisplayOrder C.facetValuesDisplayOrder r fs hfs
      refine ⟨r2, htot, ?_⟩
      rw [hA]
  · rw [if_neg ht]
    exact ⟨r, rfl, rfl⟩

theorem lookup_process_field_values (allowed : List String) (post : Dict String)
    (k : String) :
    (process_field_values allowed post).lookup k =
      if k ∈ allowed then post.lookup k else none := by
  induction post with
  | nil => simp [process_field_values]
  | cons p t ih =>
    obtain ⟨a, v⟩ := p
    unfold process_field_values at ih ⊢
    by_cases ha : a ∈ allowed
    · rw [List.filter_cons_of_pos (by simpa using ha)]
      simp only [lookup_cons]
      by_cases hk : k = a
      · subst hk; simp [ha]
      · simp only [if_neg hk]; exact ih
    · rw [List.filter_cons_of_neg (by simpa using ha)]
      rw [ih]
      by_cases hka : k ∈ allowed
      · simp only [if_pos hka, lookup_cons]
        have hne : k ≠ a := fun hc => ha (hc ▸ hka)
        rw [if_neg hne]
      · simp [hka]

theorem keys_process_field_values (allowed : List String) (post : Dict String)
    (k : String) :
    k ∈ (process_field_values allowed post).map Prod.fst ↔
      k ∈ post.map Prod.fst ∧ k ∈ allowed := by
  induction post with
  | nil => simp [process_field_values]
  | cons p t ih =>
    obtain ⟨a, v⟩ := p
    unfold process_field_values at ih ⊢
    by_cases ha : a ∈ allowed
    · rw [List.filter_cons_of_pos (by simpa using ha)]
      simp only [List.map_cons, List.mem_cons, ih]
      constructor
      · rintro (rfl | ⟨h1, h2⟩)
        exacts [⟨Or.inl rfl, ha⟩, ⟨Or.inr h1, h2⟩]
      · rintro ⟨rfl | h1, h2⟩
        exacts [Or.inl rfl, Or.inr ⟨h1, h2⟩]
    · rw [List.filter_cons_of_neg (by simpa using ha)]
      rw [ih]
      simp only [List.map_cons, List.mem_cons]
      constructor
      · rintro ⟨h1, h2⟩; exact ⟨Or.inr h1, h2⟩
      · rintro ⟨rfl | h1, h2⟩
        · exact absurd h2 ha
        · exact ⟨h1, h2⟩

/-- C1 counterexample: with the display-order feature enabled and the
ordering collaborator supplying one slug, a course_discovery request
with an invalid page size makes the view raise a KeyError out of the
view instead of returning the status 500 JSON error response the claim
asserts for every error. -/
theorem c1_counterexample :
    course_discovery taxFailCollab taxSettings ⟨[("page_size", "0")]⟩ =
      .raised keyErrorFacets [] [] := by rfl

/-- C1 amended: for do_search, provided the environment initializer
returns normally and analytics emission does not raise, and for
course_discovery, provided the facet display-order post-processing is
inert (feature disabled, or the ordering collaborator supplies no
slugs), every invocation returns an HTTP response of a legal shape:
status 200 with a result body on success, otherwise status 500 with an
error body of the shape error-message, and no exception propagates out
of the view. Without those provisos the view misbehaves: a raising
initializer escapes do_search, a results-displayed emission failure in
do_search is caught only after status 200 was assigned at line 108 and
so returns status 200 with an error body, and the display-order block
dereferences the facets key of a body that lacks one. -/
theorem c1_amended (C : Collab) (S : Settings) (req : Request) :
    (∀ courseId, C.initEnv = none → (∀ ev, C.emit ev = none) →
      wellFormedResp (do_search C S req courseId)) ∧
    ((S.enableTaxoman = false ∨ C.slugsDisplayOrder = []) →
      wellFormedResp (course_discovery C S req)) :=
  ⟨fun courseId hinit hemit => do_search_shape C S req courseId hinit hemit,
   fun htax => course_discovery_shape C S req htax⟩

/-- C1 witness: the amended theorem at a benign collaborator, default
settings and a concrete request. -/
theorem c1_witness :
    wellFormedResp (do_search okCollab defaultSettings reqRobotics none) ∧
    wellFormedResp (course_discovery okCollab defaultSettings reqRobotics) :=
  ⟨(c1_amended okCollab defaultSettings reqRobotics).1 none rfl (fun _ => rfl),
   (c1_amended okCollab defaultSettings reqRobotics).2 (Or.inl rfl)⟩

/-- C2: on every accepted input, _process_pagination_values agrees with
the reference normalization written from the words of the
specification: absent page_size gives size 20, offset 0, page 0 even
when page_index is supplied, and a page_size parsing into the interval
from 1 to the maximum gives that exact size, the parsed page_index
(0 when absent) and offset equal to page_index times size. -/
theorem c2_pagination_refines_spec (S : Settings) (req : Request) (t : Int × Int × Int)
    (hacc : process_pagination_values S req = .ok t) :
    normalize_pagination_spec (SEARCH_MAX_PAGE_SIZE S)
      (req.post.lookup "page_size") (req.post.lookup "page_index") = some t := by
  rcases pagination_ok_inversion S req t hacc with ⟨h1, rfl⟩ |
    ⟨s, n, hs, hn, hpos, hle, ⟨hp, rfl⟩ | ⟨p, m, hp, hm, rfl⟩⟩
  · simp [normalize_pagination_spec, h1]
  · have h1n : 1 ≤ n := by omega
    simp [normalize_pagination_spec, hs, hn, hp, h1n, hle]
  · have h1n : 1 ≤ n := by omega
    simp [normalize_pagination_spec, hs, hn, hp, hm, h1n, hle]

/-- C2 witness: the refinement theorem at a concrete accepted request. -/
theorem c2_witness :
    normalize_pagination_spec 100 (some "10") (some "2") = some (10, 20, 2) :=
  c2_pagination_refines_spec defaultSettings reqRobotics (10, 20, 2) (by rfl)

/-- C3 counterexample: with page_size equal to 5, numeric and inside
the bounds, and a non-numeric page_index, _process_pagination_values
still raises a ValueError, refuting the claimed equivalence between
raising and a bad page_size value. -/
theorem c3_counterexample :
    process_pagination_values defaultSettings
        ⟨[("page_size", "5"), ("page_index", "x")]⟩ =
        .error (.valueError (pyIntErr "x")) ∧
      pyInt? "5" = some 5 ∧ (0 : Int) < 5 ∧
      (5 : Int) ≤ SEARCH_MAX_PAGE_SIZE defaultSettings :=
  ⟨by rfl, by rfl, by norm_num, by decide⟩

/-- C3 amended: with the page_size key present, the function raises a
ValueError exactly when the page_size value is non-numeric, or its
integer value lies outside the half-open interval from 0 exclusive to
the maximum inclusive, or page_size is valid but a present page_index
value fails integer parsing. In particular page_size 0 or above the
maximum is rejected regardless of any other field. -/
theorem c3_amended (S : Settings) (req : Request) (s : String)
    (hs : req.post.lookup "page_size" = some s) :
    (∃ m, process_pagination_values S req = .error (.valueError m)) ↔
      (pyInt? s = none ∨
       (∃ n, pyInt? s = some n ∧ (n ≤ 0 ∨ SEARCH_MAX_PAGE_SIZE S < n)) ∨
       (∃ n p, pyInt? s = some n ∧ 0 < n ∧ n ≤ SEARCH_MAX_PAGE_SIZE S ∧
         req.post.lookup "page_index" = some p ∧ pyInt? p = none)) := by
  constructor
  · rintro ⟨m, herr⟩
    cases hn : pyInt? s with
    | none => exact Or.inl rfl
    | some n =>
      by_cases hr : 0 < n ∧ n ≤ SEARCH_MAX_PAGE_SIZE S
      · cases hp : req.post.lookup "page_index" with
        | none =>
          rw [pagination_valid_no_index S req s n hs hn hr.1 hr.2 hp] at herr
          exact absurd herr (by simp)
        | some p =>
          cases hm : pyInt? p with
          | none => exact Or.inr (Or.inr ⟨n, p, rfl, hr.1, hr.2, rfl, hm⟩)
          | some m2 =>
            rw [pagination_valid_index S req s p n m2 hs hn hr.1 hr.2 hp hm] at herr
            exact absurd herr (by simp)
      · refine Or.inr (Or.inl ⟨n, rfl, ?_⟩)
        omega
  · rintro (hn | ⟨n, hn, hr⟩ | ⟨n, p, hn, h1, h2, hp, hm⟩)
    · exact ⟨pyIntErr s, pagination_nonnumeric_size S req s hs hn⟩
    · exact ⟨invalidPageSizeMsg n,
        pagination_out_of_range S req s n hs hn (by omega)⟩
    · exact ⟨pyIntErr p, pagination_bad_index S req s p n hs hn h1 h2 hp hm⟩

/-- C3 witness: the amended equivalence at the concrete rejected
request with page_size 0. -/
theorem c3_witness :
    ∃ m, process_pagination_values defaultSettings ⟨[("page_size", "0")]⟩ =
      .error (.valueError m) :=
  (c3_amended defaultSettings ⟨[("page_size", "0")]⟩ "0" (by rfl)).mpr
    (Or.inr (Or.inl ⟨0, by rfl, Or.inl (by norm_num)⟩))

/-- C4: _process_field_values returns exactly the allow-listed
sub-dictionary of the request: a key is in the output exactly when it
is a request key that the collaborator allows, the value of every
retained key is copied verbatim, dropped keys raise no error since the
function is total and returns none for them. -/
theorem c4_field_values (allowed : List String) (post : Dict String) (k : String) :
    ((process_field_values allowed post).lookup k =
      if k ∈ allowed then post.lookup k else none) ∧
    (k ∈ (process_field_values allowed post).map Prod.fst ↔
      k ∈ post.map Prod.fst ∧ k ∈ allowed) :=
  ⟨lookup_process_field_values allowed post k,
   keys_process_field_values allowed post k⟩

/-- C5: when the environment initializer returns and search_string is
absent or empty, do_search answers with the EmptyQuery error body and
status 500, emits no event and, in particular, never calls the search
collaborator. -/
theorem c5_empty_query (C : Collab) (S : Settings) (req : Request)
    (courseId : Option String) (hinit : C.initEnv = none)
    (hterm : strFalsy (req.post.lookup "search_string") = true) :
    do_search C S req courseId = .resp 500 (.err noSearchTermMsg) [] [] :=
  do_search_empty_term C S req courseId hinit hterm

/-- C5 witness: the theorem at a concrete request with an empty
search_string. -/
theorem c5_witness :
    do_search okCollab defaultSettings ⟨[("search_string", "")]⟩ none =
      .resp 500 (.err noSearchTermMsg) [] [] :=
  c5_empty_query okCollab defaultSettings ⟨[("search_string", "")]⟩ none rfl (by rfl)

/-- C6 counterexample: the discovery collaborator succeeds with a
result that has no facets key, yet with the display-order feature
enabled and one slug supplied the view raises a KeyError after emitting
both events, so no status 200 response exists although the collaborator
call succeeded. -/
theorem c6_counterexample :
    course_discovery noFacetsCollab taxSettings ⟨[]⟩ =
      .raised keyErrorFacets
        [Event.initiated none 20 0, Event.resultsDisplayed none 20 0 3]
        [SearchCall.discoverySearch none 20 0 []] := by rfl

/-- C6 amended: provided pagination is accepted and analytics emission
does not raise, a successful collaborator call yields exactly one
initiated event followed by one results-displayed event whose results
count equals the result total, and a status 200 response: for
do_search given that the environment initializer returns and the
search term is non-falsy, and for course_discovery given that the
facet display-order post-processing does not fault (feature disabled,
no slugs supplied, or the result carries a facets mapping; a success
result without facets instead raises a KeyError after both events). -/
theorem c6_amended (C : Collab) (S : Settings) (req : Request)
    (size fromOff page : Int) (r : SearchResult)
    (hpag : process_pagination_values S req = .ok (size, fromOff, page))
    (hemit : ∀ ev, C.emit ev = none) :
    (∀ courseId, C.initEnv = none →
      strFalsy (req.post.lookup "search_string") = false →
      C.performSearch ((req.post.lookup "search_string").getD "") size fromOff
        courseId = .ok r →
      do_search C S req courseId =
        .resp 200 (.ok r)
          [Event.initiated (req.post.lookup "search_string") size page,
           Event.resultsDisplayed (req.post.lookup "search_string") size page r.total]
          [SearchCall.performSearch ((req.post.lookup "search_string").getD "") size
            fromOff courseId]) ∧
    (C.discoverySearch (req.post.lookup "search_string") size fromOff
        (process_field_values C.filterFields req.post) = .ok r →
      (S.enableTaxoman = false ∨ C.slugsDisplayOrder = [] ∨ r.facets.isSome = true) →
      ∃ r2, r2.total = r.total ∧
        course_discovery C S req =
          .resp 200 (.ok r2)
            [Event.initiated (req.post.lookup "search_string") size page,
             Event.resultsDisplayed (req.post.lookup "search_string") size page r.total]
            [SearchCall.discoverySearch (req.post.lookup "search_string") size fromOff
              (process_field_values C.filterFields req.post)]) := by
  constructor
  · intro courseId hinit hterm hok
    exact do_search_success C S req courseId size fromOff page r hinit hterm hpag
      hemit hok
  · intro hok htax
    exact course_discovery_ok_of_inner C S req r _ _
      (course_discovery_inner_success C S req size fromOff page r hpag hemit hok) htax

/-- C6 witness: the amended theorem at a concrete successful do_search
invocation and a concrete successful course_discovery invocation. -/
theorem c6_witness :
    do_search okCollab defaultSettings reqRobotics none =
      .resp 200 (.ok sampleResult)
        [Event.initiated (some "robotics") 10 2,
         Event.resultsDisplayed (some "robotics") 10 2 7]
        [SearchCall.performSearch "robotics" 10 20 none] ∧
    (∃ r2, r2.total = (7 : Int) ∧
      course_discovery okCollab defaultSettings reqRobotics =
        .resp 200 (.ok r2)
          [Event.initiated (some "robotics") 10 2,
           Event.resultsDisplayed (some "robotics") 10 2 7]
          [SearchCall.discoverySearch (some "robotics") 10 20 []]) :=
  ⟨(c6_amended okCollab defaultSettings reqRobotics 10 20 2 sampleResult (by rfl)
      (fun _ => rfl)).1 none rfl (by rfl) (by rfl),
   (c6_amended okCollab defaultSettings reqRobotics 10 20 2 sampleResult (by rfl)
      (fun _ => rfl)).2 (by rfl) (Or.inl rfl)⟩

/-- C8: the display-order post-processing on a facets dictionary, for a
duplicate-free slug ordering: a slug present on both sides has its
entry overwritten with the annotated entry, which gains display_order
and has facet_values replaced by the collaborator list; a slug present
only in the result is unchanged; a slug present only in the ordering is
ignored; the key set of the facets dictionary is unchanged, so no facet
is removed or added. -/
theorem c8_taxoman_facets (fv : String → JVal) (so : List (String × Int)) (fs : FacetsD)
    (hnd : (so.map Prod.fst).Nodup) :
    (∀ slug order f, (slug, order) ∈ so → fs.lookup slug = some f →
      (taxoman_annotate fv so fs).lookup slug =
        some (annotate_facet fv slug order f)) ∧
    (∀ slug order f,
      (annotate_facet fv slug order f).lookup "display_order" =
          some (JVal.jint order) ∧
        (annotate_facet fv slug order f).lookup "facet_values" = some (fv slug)) ∧
    (∀ slug, slug ∉ so.map Prod.fst →
      (taxoman_annotate fv so fs).lookup slug = fs.lookup slug) ∧
    (∀ slug, fs.lookup slug = none →
      (taxoman_annotate fv so fs).lookup slug = none) ∧
    (taxoman_annotate fv so fs).map Prod.fst = fs.map Prod.fst := by
  refine ⟨fun slug order f hmem hf =>
      taxoman_annotate_lookup_mem fv so fs hnd slug order f hmem hf,
    fun slug order f => ⟨?_, lookup_dictSet_self _ _ _⟩,
    fun slug h => taxoman_annotate_lookup_not_mem fv so fs slug h,
    fun slug h => taxoman_annotate_lookup_none fv so fs slug h,
    taxoman_annotate_keys fv so fs⟩
  unfold annotate_facet
  rw [lookup_dictSet_ne _ _ _ _ (by decide), lookup_dictSet_self]

/-- C8 witness: the theorem at a concrete ordering and facets
dictionary. -/
theorem c8_witness :
    (taxoman_annotate (fun _ => JVal.jarr []) [("language", 0)] sampleFacets).lookup
        "language" =
      some (annotate_facet (fun _ => JVal.jarr []) "language" 0
        [("facet_values", JVal.jarr [])]) :=
  (c8_taxoman_facets (fun _ => JVal.jarr []) [("language", 0)] sampleFacets
      (by simp)).1 "language" 0 _ (by simp) (by rfl)

/-- C9 counterexample: a request with page_size 10 and page_index -3 is
accepted and produces the negative page index -3 with offset -30,
refuting the claimed non-negativity of the produced page index. -/
theorem c9_counterexample :
    process_pagination_values defaultSettings
        ⟨[("page_size", "10"), ("page_index", "-3")]⟩ = .ok (10, -30, -3) ∧
      (-3 : Int) < 0 :=
  ⟨by rfl, by norm_num⟩

/-- C9 amended: page_index defaults to 0 when it is absent or when
page_size is absent; when present alongside a valid page_size it is
passed through exactly as parsed, with no bound in either direction,
and offset equals page_index times size, forwarded unmodified. -/
theorem c9_amended (S : Settings) (req : Request) :
    (req.post.lookup "page_size" = none →
      process_pagination_values S req = .ok (20, 0, 0)) ∧
    (∀ s n, req.post.lookup "page_size" = some s → pyInt? s = some n →
      0 < n → n ≤ SEARCH_MAX_PAGE_SIZE S →
      ((req.post.lookup "page_index" = none →
         process_pagination_values S req = .ok (n, 0, 0)) ∧
       (∀ p m, req.post.lookup "page_index" = some p → pyInt? p = some m →
         process_pagination_values S req = .ok (n, m * n, m)))) :=
  ⟨fun h => pagination_no_size S req h,
   fun s n hs hn h1 h2 =>
    ⟨fun hp => pagination_valid_no_index S req s n hs hn h1 h2 hp,
     fun p m hp hm => pagination_valid_index S req s p n m hs hn h1 h2 hp hm⟩⟩

/-- C9 witness: the amended theorem at a concrete request with an
arbitrarily large page index of one billion, passed through
unmodified. -/
theorem c9_witness :
    process_pagination_values defaultSettings
        ⟨[("page_size", "10"), ("page_index", "1000000000")]⟩ =
      .ok (10, 10000000000, 1000000000) :=
  ((c9_amended defaultSettings
        ⟨[("page_size", "10"), ("page_index", "1000000000")]⟩).2 "10" 10
      (by rfl) (by rfl) (by norm_num) (by decide)).2 "1000000000" 1000000000
    (by rfl) (by rfl)

/-- C10 counterexample: with the display-order feature enabled and one
slug supplied, a course_discovery request with valid page_size and
non-numeric page_index does not terminate with the claimed status 500
JSON body: the view raises a KeyError instead. -/
theorem c10_counterexample :
    course_discovery taxFailCollab taxSettings
        ⟨[("page_size", "5"), ("page_index", "x")]⟩ =
      .raised keyErrorFacets [] [] := by rfl

/-- C10 amended: provided the facet display-order post-processing is
inert, a course_discovery request with a valid present page_size and a
non-numeric page_index terminates with status 500 and the raw
parse-error message as error body, with no event emitted and no search
collaborator call made, the parse fault never propagating out of the
view; and for do_search, given additionally that the environment
initializer returns and the search term is non-falsy, the same
status 500 raw-message outcome holds. -/
theorem c10_amended (C : Collab) (S : Settings) (req : Request)
    (s p : String) (n : Int)
    (hs : req.post.lookup "page_size" = some s) (hn : pyInt? s = some n)
    (h1 : 0 < n) (h2 : n ≤ SEARCH_MAX_PAGE_SIZE S)
    (hp : req.post.lookup "page_index" = some p) (hm : pyInt? p = none)
    (htax : S.enableTaxoman = false ∨ C.slugsDisplayOrder = []) :
    course_discovery C S req = .resp 500 (.err (pyIntErr p)) [] [] ∧
    (∀ courseId, C.initEnv = none →
      strFalsy (req.post.lookup "search_string") = false →
      do_search C S req courseId = .resp 500 (.err (pyIntErr p)) [] []) := by
  have hpag := pagination_bad_index S req s p n hs hn h1 h2 hp hm
  refine ⟨course_discovery_of_inner C S req 500 _ [] []
    (course_discovery_inner_pagination_error C S req _ hpag) htax, ?_⟩
  intro courseId hinit hterm
  exact do_search_pagination_error C S req courseId _ hinit hterm hpag

/-- C10 witness: the amended theorem exercised on a term-less
course_discovery request and on a do_search request with a term. -/
theorem c10_witness :
    course_discovery okCollab defaultSettings
        ⟨[("page_size", "5"), ("page_index", "x")]⟩ =
      .resp 500 (.err (pyIntErr "x")) [] [] ∧
    do_search okCollab defaultSettings
        ⟨[("search_string", "q"), ("page_size", "5"), ("page_index", "x")]⟩ none =
      .resp 500 (.err (pyIntErr "x")) [] [] :=
  ⟨(c10_amended okCollab defaultSettings ⟨[("page_size", "5"), ("page_index", "x")]⟩
      "5" "x" 5 (by rfl) (by rfl) (by norm_num) (by decide) (by rfl) (by rfl)
      (Or.inl rfl)).1,
   (c10_amended okCollab defaultSettings
      ⟨[("search_string", "q"), ("page_size", "5"), ("page_index", "x")]⟩
      "5" "x" 5 (by rfl) (by rfl) (by norm_num) (by decide) (by rfl) (by rfl)
      (Or.inl rfl)).2 none rfl (by rfl)⟩

end EdxSearch
